import Mathlib

/-!
Verification of the `sindri init` command (`initCommand` in the CLI source) and
its helpers, shallowly embedded in Lean 4.

The embedding follows the source structurally:
* the pure input validators and default-value derivations become Lean functions
  on `String`;
* the interactive command action becomes `runInit`, a function from the
  external inputs (filesystem state, user answers, git environment) to a
  `RunResult` trace recording the exit code, the prompts that were asked (in
  order, with their default answers), the calls made to the template-rendering
  collaborator `scaffoldDirectory`, the `.gitkeep` cleanup, the fatal message
  (if any) and the sanitized diagnostics logged at error level.
-/

/-- The character class `[-a-zA-Z0-9_]` used by the circuit-name regex
`^[-a-zA-Z0-9_]+$` and by the default-name substitution. -/
def isNameChar (c : Char) : Bool :=
  c = '-' || c = '_' || c.isAlpha || c.isDigit

/-- Test of the circuit-name regex: `/^[-a-zA-Z0-9_]+$/.test(input)`. -/
def matchesNameClass (s : String) : Bool :=
  !s.data.isEmpty && s.data.all isNameChar

/-- The `validate` callback of the Circuit Name prompt: `none` models the
`true` (valid) return, `some reason` models returning a rejection string. -/
def validateCircuitName (input : String) : Option String :=
  if input.length = 0 then
    some "You must specify a circuit name."
  else if !matchesNameClass input then
    some "Only alphanumeric characters, hyphens, and underscores are allowed."
  else
    none

/-- Substitution `directoryName.replace(/[^-a-zA-Z0-9_]/g, "-")`: every
character outside the name class becomes a hyphen. -/
def replaceNonName : List Char → List Char
  | [] => []
  | c :: cs => (if isNameChar c then c else '-') :: replaceNonName cs

/-- The default value of the Circuit Name prompt, derived from the target
directory's base name. -/
def defaultCircuitName (directoryName : String) : String :=
  String.mk (replaceNonName directoryName.data)

/-- Test of the package-name regex `/^[a-z][a-z0-9]*$/`: first character a
lowercase letter, the rest lowercase letters or digits. -/
def matchesPackageClass (s : String) : Bool :=
  match s.data with
  | [] => false
  | c :: cs => c.isLower && cs.all (fun d => d.isLower || d.isDigit)

/-- The `validate` callback of the Go Package Name prompt. -/
def validatePackageName (input : String) : Option String :=
  if input.length = 0 then
    some "You must specify a package name."
  else if !matchesPackageClass input then
    some ("Package names must begin with a lowercase letter and only be followed by " ++
      "alphanumeric characters.")
  else
    none

/-- The character class `[a-zA-Z0-9]`. -/
def isAlnumChar (c : Char) : Bool :=
  c.isAlpha || c.isDigit

/-- The default value of the Go Package Name prompt:
`circuitName.replace(/[^a-zA-Z0-9]/g, "").replace(/^[^a-z]*/, "")` —
strip every non-alphanumeric character, then strip the leading run of
characters that are not lowercase letters. -/
def defaultPackageName (circuitName : String) : String :=
  String.mk ((circuitName.data.filter isAlnumChar).dropWhile (fun c => !c.isLower))

/-- The closed set of proving-framework choices of the Proving Framework
select prompt. -/
inductive CircuitType
  | circom
  | gnark
  | halo2
  | noir
deriving DecidableEq, Repr

/-- The `value` string of each Proving Framework choice. -/
def circuitTypeValue : CircuitType → String
  | .circom => "circom"
  | .gnark => "gnark"
  | .halo2 => "halo2"
  | .noir => "noir"

/-- The closed six-option set of the Curve Name select prompt. -/
inductive CurveName
  | bn254
  | bls12_377
  | bls12_381
  | bls24_315
  | bw6_633
  | bw6_761
deriving DecidableEq, Repr

/-- The `value` string of each Curve Name choice. -/
def curveValue : CurveName → String
  | .bn254 => "bn254"
  | .bls12_377 => "bls12-377"
  | .bls12_381 => "bls12-381"
  | .bls24_315 => "bls24-315"
  | .bw6_633 => "bw6-633"
  | .bw6_761 => "bw6-761"

/-- JavaScript `String.prototype.replace` with string pattern `"-"` and
replacement `"_"`: only the first occurrence is replaced. -/
def replaceFirstDash : List Char → List Char
  | [] => []
  | c :: cs => if c = '-' then '_' :: cs else c :: replaceFirstDash cs

/-- Derivation `curveName.toUpperCase().replace("-", "_")` of the
`gnarkCurveName` context field. -/
def gnarkCurveNameOf (c : CurveName) : String :=
  String.mk (replaceFirstDash ((curveValue c).data.map Char.toUpper))

/-- The configuration context passed to `scaffoldDirectory`; on the (only
supported) gnark path all six fields have been assigned. -/
structure Context where
  circuitName : String
  circuitType : String
  curveName : String
  gnarkCurveName : String
  packageName : String
  provingScheme : String
deriving DecidableEq, Repr

/-- One invocation of the template-rendering collaborator
`scaffoldDirectory(templateSet, directoryPath, context)`. -/
structure ScaffoldCall where
  templateSet : String
  directory : String
  context : Context
deriving DecidableEq, Repr

/-- One interactive prompt, recorded with the default answer it offers. -/
inductive PromptEvent
  | confirmOverwrite (defaultAnswer : Bool)
  | inputCircuitName (defaultValue : String)
  | selectCircuitType (defaultValue : CircuitType)
  | inputPackageName (defaultValue : String)
  | selectProvingScheme
  | selectCurveName (defaultValue : CurveName)
  | confirmInitGit (defaultAnswer : Bool)
deriving DecidableEq, Repr

/-- The structured diagnostic surfaced by a failed `execSync` call: a message
plus the captured `output` / `stderr` / `stdout` buffers, each possibly
absent (`key in execError` is the presence test in the source). -/
structure ExecError where
  message : String
  output : Option String
  stderr : Option String
  stdout : Option String
deriving DecidableEq, Repr

/-- The fixed placeholder the source writes over each present buffer. -/
def truncatedPlaceholder : String := "<truncated>"

/-- The sanitization loop over the noisy keys `output`, `stderr`, `stdout`:
each buffer that is present is replaced by the placeholder; absent buffers
stay absent and the message is untouched. -/
def sanitizeExecError (e : ExecError) : ExecError :=
  { e with
    output := e.output.map (fun _ => truncatedPlaceholder)
    stderr := e.stderr.map (fun _ => truncatedPlaceholder)
    stdout := e.stdout.map (fun _ => truncatedPlaceholder) }

/-- Filesystem state observed by the run: whether the target path exists,
whether it is a directory, its entries at `readdirSync` time, and whether the
`.gitkeep` placeholder exists after scaffolding. -/
structure FsState where
  pathExists : Bool
  isDirectory : Bool
  entries : List String
  gitkeepExists : Bool
deriving DecidableEq, Repr

/-- The user's answers to the prompts (each text answer is whatever the
re-prompting loop finally accepted). The Proving Scheme select has a single
choice, `groth16`, so it needs no field. -/
structure Answers where
  proceedOverwrite : Bool
  circuitName : String
  circuitType : CircuitType
  packageName : String
  curveName : CurveName
  initializeGit : Bool
deriving DecidableEq, Repr

/-- The git environment: whether `git --version` succeeds, whether `.git`
already exists in the target, and for each of the three bootstrap commands
(`git init .`, `git add .`, `git commit -m ...`) the error it raises, if
any. -/
structure GitEnv where
  gitInstalled : Bool
  gitAlreadyInitialized : Bool
  initError : Option ExecError
  addError : Option ExecError
  commitError : Option ExecError
deriving DecidableEq, Repr

/-- The three bootstrap commands run in order inside one `try` block; the
first failure, if any, is the error the `catch` receives. -/
def bootstrapOutcome (git : GitEnv) : Option ExecError :=
  match git.initError with
  | some e => some e
  | none =>
    match git.addError with
    | some e => some e
    | none => git.commitError

/-- The observable outcome of one run of the command action. -/
structure RunResult where
  exitCode : Nat
  prompts : List PromptEvent
  fatalMessage : Option String
  scaffoldCalls : List ScaffoldCall
  gitkeepRemoved : Bool
  loggedDiagnostics : List ExecError
deriving DecidableEq, Repr

/-- The full configuration context assembled on the gnark path:
`{ circuitName, circuitType }` extended by `Object.assign` with
`curveName`, `gnarkCurveName`, `packageName`, `provingScheme`. -/
def gnarkContext (ans : Answers) : Context :=
  { circuitName := ans.circuitName
    circuitType := circuitTypeValue ans.circuitType
    curveName := curveValue ans.curveName
    gnarkCurveName := gnarkCurveNameOf ans.curveName
    packageName := ans.packageName
    provingScheme := "groth16" }

/-- The prompting stage onward (source lines 50-192): the Circuit Name and
Proving Framework prompts, the gnark-specific prompts with context assembly,
the two `scaffoldDirectory` calls with `.gitkeep` cleanup, and the optional
git bootstrap with its contained failure handling. `overwritePrompts` records
whatever confirmation the directory guard asked beforehand. -/
def runPromptStage (directoryPath directoryName : String)
    (overwritePrompts : List PromptEvent) (fs : FsState) (ans : Answers)
    (git : GitEnv) : RunResult :=
  let commonPrompts : List PromptEvent := overwritePrompts ++
    [.inputCircuitName (defaultCircuitName directoryName), .selectCircuitType .gnark]
  if ans.circuitType = .gnark then
    let context := gnarkContext ans
    let gnarkPrompts : List PromptEvent := commonPrompts ++
      [.inputPackageName (defaultPackageName ans.circuitName), .selectProvingScheme,
        .selectCurveName .bn254]
    let calls : List ScaffoldCall :=
      [{ templateSet := "common", directory := directoryPath, context := context },
        { templateSet := circuitTypeValue ans.circuitType, directory := directoryPath,
          context := context }]
    let askGit := git.gitInstalled && !git.gitAlreadyInitialized
    let allPrompts := gnarkPrompts ++ if askGit then [.confirmInitGit true] else []
    let diagnostics : List ExecError :=
      if askGit && ans.initializeGit then
        match bootstrapOutcome git with
        | some e => [sanitizeExecError e]
        | none => []
      else []
    { exitCode := 0, prompts := allPrompts, fatalMessage := none,
      scaffoldCalls := calls, gitkeepRemoved := fs.gitkeepExists,
      loggedDiagnostics := diagnostics }
  else
    { exitCode := 1, prompts := commonPrompts,
      fatalMessage :=
        some ("Sorry, " ++ circuitTypeValue ans.circuitType ++ " is not yet supported."),
      scaffoldCalls := [], gitkeepRemoved := false, loggedDiagnostics := [] }

/-- The action of `initCommand`: the directory guard (source lines 20-48)
followed by the prompting stage. If the path exists and is not a directory,
warn and `process.exit(1)`; a missing path is created, so `readdirSync` then
sees an empty directory; if the directory has entries, confirm overwriting
(default `false`), and declining exits with status 1. -/
def runInit (directoryPath directoryName : String) (fs : FsState) (ans : Answers)
    (git : GitEnv) : RunResult :=
  if fs.pathExists && !fs.isDirectory then
    { exitCode := 1, prompts := [], fatalMessage := none, scaffoldCalls := [],
      gitkeepRemoved := false, loggedDiagnostics := [] }
  else
    let existingFiles : List String := if fs.pathExists then fs.entries else []
    if existingFiles.length > 0 then
      if ans.proceedOverwrite then
        runPromptStage directoryPath directoryName [.confirmOverwrite false] fs ans git
      else
        { exitCode := 1, prompts := [.confirmOverwrite false], fatalMessage := none,
          scaffoldCalls := [], gitkeepRemoved := false, loggedDiagnostics := [] }
    else
      runPromptStage directoryPath directoryName [] fs ans git


/-! ## Helper lemmas -/

theorem replaceNonName_eq_map (l : List Char) :
    replaceNonName l = l.map (fun c => if isNameChar c then c else '-') := by
  induction l with
  | nil => rfl
  | cons c cs ih => simp [replaceNonName, ih]

theorem dropWhile_dropWhile_eq {α : Type} (p : α → Bool) (l : List α) :
    (l.dropWhile p).dropWhile p = l.dropWhile p := by
  induction l with
  | nil => rfl
  | cons c cs ih =>
    cases h : p c
    · simp [List.dropWhile_cons, h]
    · simpa [List.dropWhile_cons, h] using ih

theorem filter_dropWhile_filter_eq {α : Type} (q p : α → Bool) (l : List α) :
    ((l.filter q).dropWhile p).filter q = (l.filter q).dropWhile p := by
  apply List.filter_eq_self.mpr
  intro a ha
  exact List.of_mem_filter ((List.dropWhile_sublist _).mem ha)

theorem validateCircuitName_eq_none_iff (s : String) :
    validateCircuitName s = none ↔ matchesNameClass s = true := by
  unfold validateCircuitName
  by_cases h0 : s.length = 0
  · have hnil : s.data = [] := List.length_eq_zero.mp h0
    simp [h0, matchesNameClass, hnil]
  · cases h : matchesNameClass s <;> simp [h0, h]

theorem validatePackageName_eq_none_iff (s : String) :
    validatePackageName s = none ↔ matchesPackageClass s = true := by
  unfold validatePackageName
  by_cases h0 : s.length = 0
  · have hnil : s.data = [] := List.length_eq_zero.mp h0
    simp [h0, matchesPackageClass, hnil]
  · cases h : matchesPackageClass s <;> simp [h0, h]

/-! ## Claim theorems -/

/-- C4: project-name validation rejects the empty string and every string
containing a character outside `[-a-zA-Z0-9_]`, each time with a non-empty
reason string; it accepts every non-empty string composed exclusively of
hyphens, underscores and alphanumerics; and the default value offered is the
target directory's base name with every character outside that class replaced
by a hyphen. -/
theorem circuitName_validation_spec (s d : String) :
    (validateCircuitName s = none ↔ s.data ≠ [] ∧ ∀ c ∈ s.data, isNameChar c = true) ∧
    (∀ r, validateCircuitName s = some r → r ≠ "") ∧
    (defaultCircuitName d).data = d.data.map (fun c => if isNameChar c then c else '-') := by
  refine ⟨?_, ?_, ?_⟩
  · rw [validateCircuitName_eq_none_iff]
    simp [matchesNameClass, List.isEmpty_iff, List.all_eq_true]
  · intro r hr hempty
    subst hempty
    unfold validateCircuitName at hr
    split at hr
    · exact absurd (Option.some.inj hr) (by decide)
    · split at hr
      · exact absurd (Option.some.inj hr) (by decide)
      · exact Option.noConfusion hr
  · exact replaceNonName_eq_map d.data

/-- C4 witness: the validator and default evaluated on concrete strings via
the theorem. -/
theorem circuitName_validation_spec_witness :
    (validateCircuitName "my-circuit_1" = none ↔
      ("my-circuit_1" : String).data ≠ [] ∧
      ∀ c ∈ ("my-circuit_1" : String).data, isNameChar c = true) ∧
    (∀ r, validateCircuitName "my-circuit_1" = some r → r ≠ "") ∧
    (defaultCircuitName "my proj!").data =
      ("my proj!" : String).data.map (fun c => if isNameChar c then c else '-') :=
  circuitName_validation_spec "my-circuit_1" "my proj!"

/-- C5: package-identifier validation rejects the empty string and every
string not matching `^[a-z][a-z0-9]*$`, returning a rejection reason string;
it accepts exactly the non-empty strings that start with a lowercase letter
followed only by lowercase letters and digits. -/
theorem packageName_validation_spec (s : String) :
    (validatePackageName s = none ↔ matchesPackageClass s = true) ∧
    (matchesPackageClass s = true ↔
      ∃ c cs, s.data = c :: cs ∧ c.isLower = true ∧
        ∀ d ∈ cs, (d.isLower || d.isDigit) = true) ∧
    (∀ r, validatePackageName s = some r → r ≠ "") := by
  refine ⟨validatePackageName_eq_none_iff s, ?_, ?_⟩
  · unfold matchesPackageClass
    cases h : s.data with
    | nil => simp
    | cons c cs =>
      constructor
      · intro hm
        rw [Bool.and_eq_true] at hm
        exact ⟨c, cs, rfl, hm.1, by simpa [List.all_eq_true] using hm.2⟩
      · rintro ⟨c2, cs2, heq, h1, h2⟩
        injection heq with e1 e2
        subst e1
        subst e2
        rw [Bool.and_eq_true]
        exact ⟨h1, by simpa [List.all_eq_true] using h2⟩
  · intro r hr hempty
    subst hempty
    unfold validatePackageName at hr
    split at hr
    · exact absurd (Option.some.inj hr) (by decide)
    · split at hr
      · exact absurd (Option.some.inj hr) (by decide)
      · exact Option.noConfusion hr

/-- C5 witness: the validator evaluated on a concrete string via the
theorem. -/
theorem packageName_validation_spec_witness :
    (validatePackageName "abc9" = none ↔ matchesPackageClass "abc9" = true) ∧
    (matchesPackageClass "abc9" = true ↔
      ∃ c cs, ("abc9" : String).data = c :: cs ∧ c.isLower = true ∧
        ∀ d ∈ cs, (d.isLower || d.isDigit) = true) ∧
    (∀ r, validatePackageName "abc9" = some r → r ≠ "") :=
  packageName_validation_spec "abc9"

/-- C6: the default package-identifier derivation (strip all non-alphanumeric
characters, then strip the leading run of characters that are not lowercase
letters) is idempotent. -/
theorem defaultPackageName_idempotent (s : String) :
    defaultPackageName (defaultPackageName s) = defaultPackageName s :=
  congrArg String.mk
    (by rw [filter_dropWhile_filter_eq, dropWhile_dropWhile_eq] :
      ((((s.data.filter isAlnumChar).dropWhile fun c => !c.isLower).filter
          isAlnumChar).dropWhile fun c => !c.isLower)
        = (s.data.filter isAlnumChar).dropWhile fun c => !c.isLower)

/-- C7: for every choice of the closed six-option curve set, the derived
field equals the upper-cased choice with its separator replaced by an
underscore, and it is added to the context without a separate prompt (the
assembled gnark context carries it and the prompt list of a gnark run has no
event for it beyond the curve select itself); in particular `bls12-377`
yields `BLS12_377`. -/
theorem gnarkCurveName_derivation :
    (∀ c : CurveName, (gnarkCurveNameOf c).data
        = ((curveValue c).data.map Char.toUpper).map (fun ch => if ch = '-' then '_' else ch)) ∧
    gnarkCurveNameOf CurveName.bls12_377 = "BLS12_377" ∧
    (∀ ans : Answers, (gnarkContext ans).gnarkCurveName = gnarkCurveNameOf ans.curveName) := by
  refine ⟨?_, by decide, fun ans => rfl⟩
  intro c
  cases c <;> decide

/-- C10: the default offered at the package-identifier prompt is not always
valid: the project names `123` and `---` pass the project-name validator,
contain no lowercase letter, derive the empty default, and the
package-identifier validator rejects the empty string. -/
theorem defaultPackageName_not_always_valid :
    validateCircuitName "123" = none ∧
    validateCircuitName "---" = none ∧
    defaultPackageName "123" = "" ∧
    defaultPackageName "---" = "" ∧
    (validatePackageName "").isSome = true := by
  decide

theorem runPromptStage_unsupported (dp dn : String) (ps : List PromptEvent)
    (fs : FsState) (ans : Answers) (git : GitEnv)
    (hkind : ans.circuitType ≠ CircuitType.gnark) :
    runPromptStage dp dn ps fs ans git =
      { exitCode := 1,
        prompts := ps ++ [.inputCircuitName (defaultCircuitName dn), .selectCircuitType .gnark],
        fatalMessage :=
          some ("Sorry, " ++ circuitTypeValue ans.circuitType ++ " is not yet supported."),
        scaffoldCalls := [], gitkeepRemoved := false, loggedDiagnostics := [] } := by
  simp [runPromptStage, hkind]

theorem runInit_eq_promptStage (dp dn : String) (fs : FsState) (ans : Answers) (git : GitEnv)
    (hguard : (fs.pathExists && !fs.isDirectory) = false)
    (hproceed : (if fs.pathExists then fs.entries else []) = [] ∨ ans.proceedOverwrite = true) :
    ∃ ps, runInit dp dn fs ans git = runPromptStage dp dn ps fs ans git := by
  by_cases hnil : (if fs.pathExists then fs.entries else []) = []
  · exact ⟨[], by simp [runInit, hguard, hnil]⟩
  · rcases hproceed with h | h
    · exact absurd h hnil
    · have hlen : 0 < (if fs.pathExists then fs.entries else []).length :=
        List.length_pos.mpr hnil
      exact ⟨[.confirmOverwrite false], by simp [runInit, hguard, h, hlen]⟩

theorem runPromptStage_prompts_shape (dp dn : String) (ps : List PromptEvent)
    (fs : FsState) (ans : Answers) (git : GitEnv) :
    ∃ rest, (runPromptStage dp dn ps fs ans git).prompts
      = ps ++ (PromptEvent.inputCircuitName (defaultCircuitName dn) :: rest) := by
  by_cases h : ans.circuitType = CircuitType.gnark
  · refine ⟨PromptEvent.selectCircuitType .gnark ::
      PromptEvent.inputPackageName (defaultPackageName ans.circuitName) ::
      PromptEvent.selectProvingScheme :: PromptEvent.selectCurveName .bn254 ::
      (if git.gitInstalled && !git.gitAlreadyInitialized
        then [PromptEvent.confirmInitGit true] else []), ?_⟩
    simp [runPromptStage, h]
  · exact ⟨[PromptEvent.selectCircuitType .gnark], by simp [runPromptStage, h]⟩

/-- C1: for every project-kind choice other than gnark, a run that reaches the
kind selection exits with status 1, logs a fatal message naming the
unsupported kind, and invokes the template-rendering collaborator zero
times. -/
theorem unsupported_kind_aborts (directoryPath directoryName : String) (fs : FsState)
    (ans : Answers) (git : GitEnv)
    (hguard : (fs.pathExists && !fs.isDirectory) = false)
    (hproceed : (if fs.pathExists then fs.entries else []) = [] ∨ ans.proceedOverwrite = true)
    (hkind : ans.circuitType ≠ CircuitType.gnark) :
    (runInit directoryPath directoryName fs ans git).exitCode = 1 ∧
    (runInit directoryPath directoryName fs ans git).scaffoldCalls = [] ∧
    (runInit directoryPath directoryName fs ans git).fatalMessage =
      some ("Sorry, " ++ circuitTypeValue ans.circuitType ++ " is not yet supported.") := by
  obtain ⟨ps, hps⟩ :=
    runInit_eq_promptStage directoryPath directoryName fs ans git hguard hproceed
  rw [hps, runPromptStage_unsupported directoryPath directoryName ps fs ans git hkind]
  exact ⟨rfl, rfl, rfl⟩

/-- C1 witness: a concrete circom run against an absent target directory. -/
theorem unsupported_kind_aborts_witness :
    (runInit "proj" "proj" ⟨false, true, [], false⟩
        ⟨false, "c", CircuitType.circom, "pkg", CurveName.bn254, false⟩
        ⟨false, false, none, none, none⟩).exitCode = 1 ∧
    (runInit "proj" "proj" ⟨false, true, [], false⟩
        ⟨false, "c", CircuitType.circom, "pkg", CurveName.bn254, false⟩
        ⟨false, false, none, none, none⟩).scaffoldCalls = [] ∧
    (runInit "proj" "proj" ⟨false, true, [], false⟩
        ⟨false, "c", CircuitType.circom, "pkg", CurveName.bn254, false⟩
        ⟨false, false, none, none, none⟩).fatalMessage =
      some ("Sorry, " ++ circuitTypeValue CircuitType.circom ++ " is not yet supported.") :=
  unsupported_kind_aborts "proj" "proj" _ _ _ rfl (Or.inl rfl) (by decide)

/-- C3: for every target path that exists and is not a directory, the run
exits with status 1, asks no questions, and performs no template
rendering. -/
theorem file_target_aborts (directoryPath directoryName : String) (fs : FsState)
    (ans : Answers) (git : GitEnv)
    (hexists : fs.pathExists = true) (hnotdir : fs.isDirectory = false) :
    (runInit directoryPath directoryName fs ans git).exitCode = 1 ∧
    (runInit directoryPath directoryName fs ans git).prompts = [] ∧
    (runInit directoryPath directoryName fs ans git).scaffoldCalls = [] := by
  simp [runInit, hexists, hnotdir]

/-- C3 witness: a concrete run whose target is an existing regular file. -/
theorem file_target_aborts_witness :
    (runInit "proj" "proj" ⟨true, false, [], false⟩
        ⟨false, "c", CircuitType.gnark, "pkg", CurveName.bn254, false⟩
        ⟨false, false, none, none, none⟩).exitCode = 1 ∧
    (runInit "proj" "proj" ⟨true, false, [], false⟩
        ⟨false, "c", CircuitType.gnark, "pkg", CurveName.bn254, false⟩
        ⟨false, false, none, none, none⟩).prompts = [] ∧
    (runInit "proj" "proj" ⟨true, false, [], false⟩
        ⟨false, "c", CircuitType.gnark, "pkg", CurveName.bn254, false⟩
        ⟨false, false, none, none, none⟩).scaffoldCalls = [] :=
  file_target_aborts "proj" "proj" _ _ _ rfl rfl

/-- C2: for every target path that exists, is a directory and has at least
one entry, the run asks the overwrite confirmation first, with default
answer no; declining exits with status 1 and invokes the template-rendering
collaborator zero times; accepting proceeds to the prompting stage (the
Circuit Name prompt is asked). -/
theorem nonempty_directory_confirmation (directoryPath directoryName : String)
    (fs : FsState) (ans : Answers) (git : GitEnv)
    (hexists : fs.pathExists = true) (hdir : fs.isDirectory = true)
    (hne : fs.entries ≠ []) :
    (runInit directoryPath directoryName fs ans git).prompts.head? =
      some (PromptEvent.confirmOverwrite false) ∧
    (ans.proceedOverwrite = false →
      (runInit directoryPath directoryName fs ans git).exitCode = 1 ∧
      (runInit directoryPath directoryName fs ans git).scaffoldCalls = []) ∧
    (ans.proceedOverwrite = true →
      PromptEvent.inputCircuitName (defaultCircuitName directoryName) ∈
        (runInit directoryPath directoryName fs ans git).prompts) := by
  cases hp : ans.proceedOverwrite
  · have hrun : runInit directoryPath directoryName fs ans git =
        { exitCode := 1, prompts := [.confirmOverwrite false], fatalMessage := none,
          scaffoldCalls := [], gitkeepRemoved := false, loggedDiagnostics := [] } := by
      simp [runInit, hexists, hdir, hp, hne]
    rw [hrun]
    exact ⟨rfl, fun _ => ⟨rfl, rfl⟩, fun h => absurd h (by decide)⟩
  · have hrun : runInit directoryPath directoryName fs ans git =
        runPromptStage directoryPath directoryName [.confirmOverwrite false] fs ans git := by
      simp [runInit, hexists, hdir, hp, hne]
    obtain ⟨rest, hrest⟩ := runPromptStage_prompts_shape directoryPath directoryName
      [.confirmOverwrite false] fs ans git
    rw [hrun, hrest]
    exact ⟨rfl, fun h => absurd h (by decide), fun _ => by simp⟩

/-- C2 witness: a concrete run against an existing non-empty directory, with
the user accepting the overwrite confirmation. -/
theorem nonempty_directory_confirmation_witness :
    (runInit "proj" "proj" ⟨true, true, ["old.txt"], false⟩
        ⟨true, "c", CircuitType.gnark, "pkg", CurveName.bn254, false⟩
        ⟨false, false, none, none, none⟩).prompts.head? =
      some (PromptEvent.confirmOverwrite false) ∧
    ((true : Bool) = false →
      (runInit "proj" "proj" ⟨true, true, ["old.txt"], false⟩
          ⟨true, "c", CircuitType.gnark, "pkg", CurveName.bn254, false⟩
          ⟨false, false, none, none, none⟩).exitCode = 1 ∧
      (runInit "proj" "proj" ⟨true, true, ["old.txt"], false⟩
          ⟨true, "c", CircuitType.gnark, "pkg", CurveName.bn254, false⟩
          ⟨false, false, none, none, none⟩).scaffoldCalls = []) ∧
    ((true : Bool) = true →
      PromptEvent.inputCircuitName (defaultCircuitName "proj") ∈
        (runInit "proj" "proj" ⟨true, true, ["old.txt"], false⟩
            ⟨true, "c", CircuitType.gnark, "pkg", CurveName.bn254, false⟩
            ⟨false, false, none, none, none⟩).prompts) :=
  nonempty_directory_confirmation "proj" "proj" _ _ _ rfl rfl (by decide)

/-- C8: on the supported-kind path the template-rendering collaborator is
invoked exactly twice, first for the shared template set `common` and then
for the kind-specific set `gnark`, each call receiving the full configuration
context and the target directory; the `.gitkeep` placeholder is deleted
exactly when it is present, and the run completes with exit status 0 whether
or not it was present. -/
theorem gnark_scaffolds_exactly_twice (directoryPath directoryName : String) (fs : FsState)
    (ans : Answers) (git : GitEnv)
    (hguard : (fs.pathExists && !fs.isDirectory) = false)
    (hproceed : (if fs.pathExists then fs.entries else []) = [] ∨ ans.proceedOverwrite = true)
    (hkind : ans.circuitType = CircuitType.gnark) :
    (runInit directoryPath directoryName fs ans git).scaffoldCalls =
      [{ templateSet := "common", directory := directoryPath, context := gnarkContext ans },
        { templateSet := "gnark", directory := directoryPath, context := gnarkContext ans }] ∧
    (runInit directoryPath directoryName fs ans git).gitkeepRemoved = fs.gitkeepExists ∧
    (runInit directoryPath directoryName fs ans git).exitCode = 0 := by
  obtain ⟨ps, hps⟩ :=
    runInit_eq_promptStage directoryPath directoryName fs ans git hguard hproceed
  rw [hps]
  refine ⟨?_, ?_, ?_⟩ <;> simp [runPromptStage, hkind, circuitTypeValue]

/-- C8 witness: a concrete gnark run against an absent target directory, with
the `.gitkeep` placeholder present after scaffolding. -/
theorem gnark_scaffolds_exactly_twice_witness :
    (runInit "proj" "proj" ⟨false, true, [], true⟩
        ⟨false, "mycircuit", CircuitType.gnark, "mypkg", CurveName.bls12_377, false⟩
        ⟨false, false, none, none, none⟩).scaffoldCalls =
      [{ templateSet := "common", directory := "proj",
          context := gnarkContext
            ⟨false, "mycircuit", CircuitType.gnark, "mypkg", CurveName.bls12_377, false⟩ },
        { templateSet := "gnark", directory := "proj",
          context := gnarkContext
            ⟨false, "mycircuit", CircuitType.gnark, "mypkg", CurveName.bls12_377, false⟩ }] ∧
    (runInit "proj" "proj" ⟨false, true, [], true⟩
        ⟨false, "mycircuit", CircuitType.gnark, "mypkg", CurveName.bls12_377, false⟩
        ⟨false, false, none, none, none⟩).gitkeepRemoved = true ∧
    (runInit "proj" "proj" ⟨false, true, [], true⟩
        ⟨false, "mycircuit", CircuitType.gnark, "mypkg", CurveName.bls12_377, false⟩
        ⟨false, false, none, none, none⟩).exitCode = 0 :=
  gnark_scaffolds_exactly_twice "proj" "proj" _ _ _ rfl (Or.inl rfl) rfl

/-- C9: a failure in any of the three repository-bootstrap commands is
caught: the final exit status is 0 and identical to that of the failure-free
run, the scaffold calls and the `.gitkeep` cleanup are identical to those of
the failure-free run, and the diagnostic is logged at error level only after
each of its present `output` / `stderr` / `stdout` buffers has been replaced
by the fixed placeholder, the rest of the diagnostic being untouched. -/
theorem bootstrap_failure_contained (directoryPath directoryName : String) (fs : FsState)
    (ans : Answers) (git : GitEnv) (e : ExecError)
    (hguard : (fs.pathExists && !fs.isDirectory) = false)
    (hproceed : (if fs.pathExists then fs.entries else []) = [] ∨ ans.proceedOverwrite = true)
    (hkind : ans.circuitType = CircuitType.gnark)
    (hgit : git.gitInstalled = true) (hnew : git.gitAlreadyInitialized = false)
    (haccept : ans.initializeGit = true)
    (hfail : bootstrapOutcome git = some e) :
    (runInit directoryPath directoryName fs ans git).exitCode = 0 ∧
    (runInit directoryPath directoryName fs ans git).exitCode =
      (runInit directoryPath directoryName fs ans
        { git with initError := none, addError := none, commitError := none }).exitCode ∧
    (runInit directoryPath directoryName fs ans git).scaffoldCalls =
      (runInit directoryPath directoryName fs ans
        { git with initError := none, addError := none, commitError := none }).scaffoldCalls ∧
    (runInit directoryPath directoryName fs ans git).gitkeepRemoved =
      (runInit directoryPath directoryName fs ans
        { git with initError := none, addError := none, commitError := none }).gitkeepRemoved ∧
    (runInit directoryPath directoryName fs ans git).loggedDiagnostics =
      [sanitizeExecError e] ∧
    (∀ b, e.output = some b → (sanitizeExecError e).output = some truncatedPlaceholder) ∧
    (∀ b, e.stderr = some b → (sanitizeExecError e).stderr = some truncatedPlaceholder) ∧
    (∀ b, e.stdout = some b → (sanitizeExecError e).stdout = some truncatedPlaceholder) ∧
    (sanitizeExecError e).message = e.message := by
  obtain ⟨ps, hps⟩ :=
    runInit_eq_promptStage directoryPath directoryName fs ans git hguard hproceed
  obtain ⟨ps2, hps2⟩ := runInit_eq_promptStage directoryPath directoryName fs ans
    { git with initError := none, addError := none, commitError := none } hguard hproceed
  rw [hps, hps2]
  refine ⟨?_, ?_, ?_, ?_, ?_, ?_, ?_, ?_, ?_⟩
  · simp [runPromptStage, hkind]
  · simp [runPromptStage, hkind]
  · simp [runPromptStage, hkind]
  · simp [runPromptStage, hkind]
  · simp [runPromptStage, hkind, hgit, hnew, haccept, hfail]
  · intro b hb
    simp [sanitizeExecError, hb]
  · intro b hb
    simp [sanitizeExecError, hb]
  · intro b hb
    simp [sanitizeExecError, hb]
  · rfl

/-- C9 witness: a concrete gnark run in which `git init .` fails with a
diagnostic carrying `output` and `stdout` buffers but no `stderr`. -/
theorem bootstrap_failure_contained_witness :
    (runInit "proj" "proj" ⟨false, true, [], true⟩
        ⟨false, "mycircuit", CircuitType.gnark, "mypkg", CurveName.bn254, true⟩
        ⟨true, false, some ⟨"Command failed", some "rawout", none, some "rawstd"⟩,
          none, none⟩).exitCode = 0 ∧
    (runInit "proj" "proj" ⟨false, true, [], true⟩
        ⟨false, "mycircuit", CircuitType.gnark, "mypkg", CurveName.bn254, true⟩
        ⟨true, false, some ⟨"Command failed", some "rawout", none, some "rawstd"⟩,
          none, none⟩).exitCode =
      (runInit "proj" "proj" ⟨false, true, [], true⟩
        ⟨false, "mycircuit", CircuitType.gnark, "mypkg", CurveName.bn254, true⟩
        ⟨true, false, none, none, none⟩).exitCode ∧
    (runInit "proj" "proj" ⟨false, true, [], true⟩
        ⟨false, "mycircuit", CircuitType.gnark, "mypkg", CurveName.bn254, true⟩
        ⟨true, false, some ⟨"Command failed", some "rawout", none, some "rawstd"⟩,
          none, none⟩).scaffoldCalls =
      (runInit "proj" "proj" ⟨false, true, [], true⟩
        ⟨false, "mycircuit", CircuitType.gnark, "mypkg", CurveName.bn254, true⟩
        ⟨true, false, none, none, none⟩).scaffoldCalls ∧
    (runInit "proj" "proj" ⟨false, true, [], true⟩
        ⟨false, "mycircuit", CircuitType.gnark, "mypkg", CurveName.bn254, true⟩
        ⟨true, false, some ⟨"Command failed", some "rawout", none, some "rawstd"⟩,
          none, none⟩).gitkeepRemoved =
      (runInit "proj" "proj" ⟨false, true, [], true⟩
        ⟨false, "mycircuit", CircuitType.gnark, "mypkg", CurveName.bn254, true⟩
        ⟨true, false, none, none, none⟩).gitkeepRemoved ∧
    (runInit "proj" "proj" ⟨false, true, [], true⟩
        ⟨false, "mycircuit", CircuitType.gnark, "mypkg", CurveName.bn254, true⟩
        ⟨true, false, some ⟨"Command failed", some "rawout", none, some "rawstd"⟩,
          none, none⟩).loggedDiagnostics =
      [sanitizeExecError ⟨"Command failed", some "rawout", none, some "rawstd"⟩] ∧
    (∀ b, (ExecError.mk "Command failed" (some "rawout") none (some "rawstd")).output = some b →
      (sanitizeExecError ⟨"Command failed", some "rawout", none, some "rawstd"⟩).output =
        some truncatedPlaceholder) ∧
    (∀ b, (ExecError.mk "Command failed" (some "rawout") none (some "rawstd")).stderr = some b →
      (sanitizeExecError ⟨"Command failed", some "rawout", none, some "rawstd"⟩).stderr =
        some truncatedPlaceholder) ∧
    (∀ b, (ExecError.mk "Command failed" (some "rawout") none (some "rawstd")).stdout = some b →
      (sanitizeExecError ⟨"Command failed", some "rawout", none, some "rawstd"⟩).stdout =
        some truncatedPlaceholder) ∧
    (sanitizeExecError ⟨"Command failed", some "rawout", none, some "rawstd"⟩).message =
      (ExecError.mk "Command failed" (some "rawout") none (some "rawstd")).message :=
  bootstrap_failure_contained "proj" "proj" _ _ _ _ rfl (Or.inl rfl) rfl rfl rfl rfl rfl
